import Mathlib

/-!
Verification of the purrtabby leader-election core (src/leader.ts, src/utils.ts,
src/types.ts) through a shallow embedding.

Modelling conventions:
* The localStorage store is a function from keys to optional raw stored values.
  A raw stored value distinguishes the cases the JavaScript code distinguishes:
  an empty string (falsy, rejected by the !data check), a string on which
  JSON.parse throws (caught, treated as null), and a string that parses to a
  lease-shaped object.
* Date.now() is passed explicitly as a parameter `now : Int`; a single entry
  point uses one instant.
* localStorage.setItem / removeItem can throw (quota); the source wraps both in
  try/catch and swallows the failure.  The Boolean parameters `writeOk` /
  `removeOk` model whether the underlying store operation succeeded; on failure
  the store is unchanged, mirroring the swallowed exception.
* Callback sets (eventCallbacks, allCallbacks, eventResolvers) contain opaque
  functions; executeCallbacks invokes them with every exception caught and
  logged, so callbacks never influence the elector state.  They are therefore
  not carried in the state record; instead every operation returns the list of
  events it passed to emitLeaderEvent (the `emitted` field), which is exactly
  the sequence dispatched to callbacks.
* setInterval handles are modelled as `Option Nat` (null vs an opaque handle);
  clearInterval followed by the null assignment becomes setting the field to
  `none`.
* The string literals passed to createLeaderEvent in leader.ts correspond to
  the three LeaderEventType values declared in types.ts
  (acquired / lost / changed).
-/

/-- Lease record stored in localStorage: interface LeaderLease of utils.ts. -/
structure LeaderLease where
  tabId : String
  timestamp : Int
  leaseMs : Int
deriving DecidableEq, Repr

/-- Raw value held in localStorage under a key, as the JavaScript code
classifies it: empty string (falsy), a string JSON.parse rejects, or a string
parsing to a lease-shaped object. -/
inductive RawStored where
  | emptyStr : RawStored
  | malformed : String → RawStored
  | parsed : LeaderLease → RawStored
deriving DecidableEq, Repr

/-- The localStorage key/value store visible to the elector. -/
abbrev Store := String → Option RawStored

/-- Result of attempting JSON.parse on a stored raw value and casting to
LeaderLease: succeeds exactly on a lease-shaped value. -/
def jsonParseLeaderLease : RawStored → Option LeaderLease
  | RawStored.emptyStr => none
  | RawStored.malformed _ => none
  | RawStored.parsed l => some l

/-- readLeaderLease of utils.ts: getItem, the falsy check, JSON.parse inside
try/catch; every failure path returns null. -/
def readLeaderLease (store : Store) (key : String) : Option LeaderLease :=
  match store key with
  | none => none
  | some RawStored.emptyStr => none
  | some (RawStored.malformed _) => none
  | some (RawStored.parsed l) => some l

/-- writeLeaderLease of utils.ts: setItem of the serialized lease inside
try/catch; a throwing setItem (writeOk = false) leaves the store unchanged. -/
def writeLeaderLease (writeOk : Bool) (store : Store) (key : String)
    (lease : LeaderLease) : Store :=
  if writeOk then
    fun k => if k = key then some (RawStored.parsed lease) else store k
  else store

/-- removeLeaderLease of utils.ts: removeItem inside try/catch; a throwing
removeItem (removeOk = false) leaves the store unchanged. -/
def removeLeaderLease (removeOk : Bool) (store : Store) (key : String) : Store :=
  if removeOk then
    fun k => if k = key then none else store k
  else store

/-- isValidLeaderLease of utils.ts: a null lease is invalid, otherwise valid
iff now - lease.timestamp < lease.leaseMs. -/
def isValidLeaderLease (now : Int) (lease : Option LeaderLease) : Bool :=
  match lease with
  | none => false
  | some l => decide (now - l.timestamp < l.leaseMs)

/-- The three values of LeaderEventType in types.ts. -/
inductive LeaderEventType where
  | acquired : LeaderEventType
  | lost : LeaderEventType
  | changed : LeaderEventType
deriving DecidableEq, Repr

/-- The meta record attached to leader events; each field that any call site
of createLeaderEvent in leader.ts sets. -/
structure LeaderEventMeta where
  tabId : Option String := none
  newLeader : Option String := none
  reason : Option String := none
deriving DecidableEq, Repr

/-- LeaderEvent of types.ts. -/
structure LeaderEvent where
  type : LeaderEventType
  ts : Int
  meta : LeaderEventMeta
deriving DecidableEq, Repr

/-- createLeaderEvent of utils.ts. -/
def createLeaderEvent (type : LeaderEventType) (now : Int)
    (meta : LeaderEventMeta) : LeaderEvent :=
  { type := type, ts := now, meta := meta }

/-- BufferOverflowPolicy of types.ts: the oldest / newest / error policies. -/
inductive BufferOverflowPolicy where
  | oldest : BufferOverflowPolicy
  | newest : BufferOverflowPolicy
  | error : BufferOverflowPolicy
deriving DecidableEq, Repr

/-- The action component of handleBufferOverflow's result. -/
inductive OverflowAction where
  | drop_oldest : OverflowAction
  | drop_newest : OverflowAction
  | error : OverflowAction
  | add : OverflowAction
deriving DecidableEq, Repr

/-- Result of handleBufferOverflow; since the source mutates the buffer
(shift under the oldest policy), the post-mutation buffer is returned
explicitly. -/
structure OverflowResult (α : Type) where
  action : OverflowAction
  dropped : Option α
  buffer : List α

/-- handleBufferOverflow of types.ts: below capacity the item is to be added;
at capacity the policy decides (oldest shifts the buffer, newest drops the
incoming item, error reports overflow). -/
def handleBufferOverflow {α : Type} (policy : BufferOverflowPolicy)
    (buffer : List α) (newItem : α) (bufferSize : Nat) : OverflowResult α :=
  if buffer.length < bufferSize then
    { action := OverflowAction.add, dropped := none, buffer := buffer }
  else
    match policy with
    | BufferOverflowPolicy.oldest =>
        { action := OverflowAction.drop_oldest, dropped := buffer.head?,
          buffer := buffer.tail }
    | BufferOverflowPolicy.newest =>
        { action := OverflowAction.drop_newest, dropped := some newItem,
          buffer := buffer }
    | BufferOverflowPolicy.error =>
        { action := OverflowAction.error, dropped := none, buffer := buffer }

/-- InternalLeaderState of types.ts, restricted to the fields that influence
the election logic (the callback containers are opaque function sets; see the
module docstring). -/
structure InternalLeaderState where
  key : String
  tabId : String
  leaseMs : Int
  heartbeatMs : Int
  jitterMs : Int
  isLeader : Bool
  heartbeatTimer : Option Nat
  checkTimer : Option Nat
  activeIterators : Nat
  stopped : Bool
  bufferSize : Nat
  bufferOverflow : BufferOverflowPolicy
deriving DecidableEq, Repr

/-- emitLeaderEvent of leader.ts, projected to the event queue: callbacks are
notified (captured by the caller's emitted log), then the event is queued only
when an iterator is active, subject to the overflow policy.  The function is
total: under the error policy the overflow is logged and the queue returned
unchanged, never an exception. -/
def emitLeaderEvent (event : LeaderEvent) (state : InternalLeaderState)
    (eventQueue : List LeaderEvent) : List LeaderEvent :=
  if state.activeIterators = 0 then eventQueue
  else
    let overflowResult :=
      handleBufferOverflow state.bufferOverflow eventQueue event state.bufferSize
    match overflowResult.action with
    | OverflowAction.error => overflowResult.buffer
    | OverflowAction.drop_newest => overflowResult.buffer
    | OverflowAction.drop_oldest => overflowResult.buffer ++ [event]
    | OverflowAction.add => overflowResult.buffer ++ [event]

/-- Number of events of the given type in an emission log. -/
def countEvents (t : LeaderEventType) (l : List LeaderEvent) : Nat :=
  (l.filter (fun e => e.type = t)).length

/-- The JavaScript test lease?.tabId === tid (undefined never equals a
string). -/
def leaseTabIs (lease : Option LeaderLease) (tid : String) : Bool :=
  match lease with
  | none => false
  | some l => decide (l.tabId = tid)

/-- Outcome of tryAcquireLeadership: its Boolean return value plus the state,
store and event queue after the call, and the events it emitted. -/
structure AcquireResult where
  returned : Bool
  state : InternalLeaderState
  store : Store
  queue : List LeaderEvent
  emitted : List LeaderEvent

/-- Outcome of the void entry points (heartbeat, check, start, stop). -/
structure StepResult where
  state : InternalLeaderState
  store : Store
  queue : List LeaderEvent
  emitted : List LeaderEvent

/-- The shared tail of tryAcquireLeadership (leader.ts lines 86-104): the
still-the-leader check on the originally read lease, the lost-leadership
transition, and the final return false.  Reached either when the lease was
valid, or after a write whose read-back did not confirm ownership. -/
def tryAcquireTail (now : Int) (state : InternalLeaderState) (store : Store)
    (currentLease : Option LeaderLease) (eventQueue : List LeaderEvent) :
    AcquireResult :=
  if leaseTabIs currentLease state.tabId && isValidLeaderLease now currentLease then
    if !state.isLeader then
      let st1 := { state with isLeader := true }
      let ev := createLeaderEvent LeaderEventType.acquired now
        { tabId := some state.tabId }
      { returned := true, state := st1, store := store,
        queue := emitLeaderEvent ev st1 eventQueue, emitted := [ev] }
    else
      { returned := true, state := state, store := store,
        queue := eventQueue, emitted := [] }
  else if state.isLeader then
    let st1 := { state with isLeader := false }
    let ev := createLeaderEvent LeaderEventType.lost now
      { tabId := some state.tabId,
        newLeader := currentLease.map LeaderLease.tabId }
    { returned := false, state := st1, store := store,
      queue := emitLeaderEvent ev st1 eventQueue, emitted := [ev] }
  else
    { returned := false, state := state, store := store,
      queue := eventQueue, emitted := [] }

/-- tryAcquireLeadership of leader.ts: on a stopped state return false; read
the lease; if invalid, write a fresh lease for this tab and read it back,
acquiring only when the read-back names this tab; otherwise fall through to
the shared tail. -/
def tryAcquireLeadership (now : Int) (writeOk : Bool)
    (state : InternalLeaderState) (store : Store)
    (eventQueue : List LeaderEvent) : AcquireResult :=
  if state.stopped then
    { returned := false, state := state, store := store,
      queue := eventQueue, emitted := [] }
  else
    let currentLease := readLeaderLease store state.key
    if !(isValidLeaderLease now currentLease) then
      let newLease : LeaderLease :=
        { tabId := state.tabId, timestamp := now, leaseMs := state.leaseMs }
      let store1 := writeLeaderLease writeOk store state.key newLease
      let acquiredLease := readLeaderLease store1 state.key
      if leaseTabIs acquiredLease state.tabId then
        if !state.isLeader then
          let st1 := { state with isLeader := true }
          let ev := createLeaderEvent LeaderEventType.acquired now
            { tabId := some state.tabId }
          { returned := true, state := st1, store := store1,
            queue := emitLeaderEvent ev st1 eventQueue, emitted := [ev] }
        else
          { returned := true, state := state, store := store1,
            queue := eventQueue, emitted := [] }
      else
        tryAcquireTail now state store1 currentLease eventQueue
    else
      tryAcquireTail now state store currentLease eventQueue

/-- The lost-leadership branch of sendLeaderHeartbeat (leader.ts lines
125-131). -/
def sendLeaderHeartbeatLost (now : Int) (state : InternalLeaderState)
    (store : Store) (eventQueue : List LeaderEvent) : StepResult :=
  if state.isLeader then
    let st1 := { state with isLeader := false }
    let ev := createLeaderEvent LeaderEventType.lost now
      { tabId := some state.tabId }
    { state := st1, store := store,
      queue := emitLeaderEvent ev st1 eventQueue, emitted := [ev] }
  else
    { state := state, store := store, queue := eventQueue, emitted := [] }

/-- sendLeaderHeartbeat of leader.ts: no-op unless an unstopped leader; if the
stored lease still names this tab, rewrite it with a fresh timestamp,
otherwise take the lost-leadership branch. -/
def sendLeaderHeartbeat (now : Int) (writeOk : Bool)
    (state : InternalLeaderState) (store : Store)
    (eventQueue : List LeaderEvent) : StepResult :=
  if state.stopped || !state.isLeader then
    { state := state, store := store, queue := eventQueue, emitted := [] }
  else
    let currentLease := readLeaderLease store state.key
    if leaseTabIs currentLease state.tabId then
      match currentLease with
      | some l =>
          let updatedLease : LeaderLease := { l with timestamp := now }
          { state := state,
            store := writeLeaderLease writeOk store state.key updatedLease,
            queue := eventQueue, emitted := [] }
      | none =>
          -- unreachable: the guard is false on a null lease
          { state := state, store := store, queue := eventQueue, emitted := [] }
    else
      sendLeaderHeartbeatLost now state store eventQueue

/-- checkLeaderLeadership of leader.ts: the reconcile pass driven by the poll
timer and by storage events. -/
def checkLeaderLeadership (now : Int) (state : InternalLeaderState)
    (store : Store) (eventQueue : List LeaderEvent) : StepResult :=
  if state.stopped then
    { state := state, store := store, queue := eventQueue, emitted := [] }
  else
    let currentLease := readLeaderLease store state.key
    let wasLeader := state.isLeader
    let isNowLeader :=
      leaseTabIs currentLease state.tabId && isValidLeaderLease now currentLease
    if !wasLeader && isNowLeader then
      let st1 := { state with isLeader := true }
      let ev := createLeaderEvent LeaderEventType.acquired now
        { tabId := some state.tabId }
      { state := st1, store := store,
        queue := emitLeaderEvent ev st1 eventQueue, emitted := [ev] }
    else if wasLeader && !isNowLeader then
      let st1 := { state with isLeader := false }
      let ev := createLeaderEvent LeaderEventType.lost now
        { tabId := some state.tabId,
          newLeader := currentLease.map LeaderLease.tabId }
      { state := st1, store := store,
        queue := emitLeaderEvent ev st1 eventQueue, emitted := [ev] }
    else if wasLeader && isNowLeader && !(leaseTabIs currentLease state.tabId) then
      let ev := createLeaderEvent LeaderEventType.changed now
        { tabId := some state.tabId,
          newLeader := currentLease.map LeaderLease.tabId }
      { state := state, store := store,
        queue := emitLeaderEvent ev state eventQueue, emitted := [ev] }
    else
      { state := state, store := store, queue := eventQueue, emitted := [] }

/-- The start method of the elector (leader.ts lines 238-259): clear the
stopped flag, attempt acquisition, arm the heartbeat timer only when leader,
always arm the check timer.  The opaque interval handles are parameters. -/
def startElector (now : Int) (writeOk : Bool) (hbHandle ckHandle : Nat)
    (state : InternalLeaderState) (store : Store)
    (eventQueue : List LeaderEvent) : StepResult :=
  let st0 := if state.stopped then { state with stopped := false } else state
  let r := tryAcquireLeadership now writeOk st0 store eventQueue
  let st1 :=
    if r.state.isLeader then { r.state with heartbeatTimer := some hbHandle }
    else r.state
  let st2 := { st1 with checkTimer := some ckHandle }
  { state := st2, store := r.store, queue := r.queue, emitted := r.emitted }

/-- The stop method of the elector (leader.ts lines 261-290): set the stopped
flag, clear both timers (clearInterval plus the null assignment leaves the
handle null whether or not a timer was armed), and if leader remove an owned
lease, drop the flag and emit the final lost event. -/
def stopElector (removeOk : Bool) (now : Int) (state : InternalLeaderState)
    (store : Store) (eventQueue : List LeaderEvent) : StepResult :=
  let st1 : InternalLeaderState :=
    { state with stopped := true, heartbeatTimer := none, checkTimer := none }
  if st1.isLeader then
    let currentLease := readLeaderLease store st1.key
    let store1 :=
      if leaseTabIs currentLease st1.tabId then
        removeLeaderLease removeOk store st1.key
      else store
    let st2 := { st1 with isLeader := false }
    let ev := createLeaderEvent LeaderEventType.lost now
      { tabId := some st1.tabId, reason := some "stopped" }
    { state := st2, store := store1,
      queue := emitLeaderEvent ev st2 eventQueue, emitted := [ev] }
  else
    { state := st1, store := store, queue := eventQueue, emitted := [] }

/-- Run tryAcquireLeadership once per entry of calls (a timestamp and a write
outcome for each call), threading state, store and queue, concatenating the
emission logs. -/
def runTryAcquire : List (Int × Bool) → InternalLeaderState → Store →
    List LeaderEvent → AcquireResult
  | [], state, store, queue =>
      { returned := false, state := state, store := store, queue := queue,
        emitted := [] }
  | (now, w) :: rest, state, store, queue =>
      let r := tryAcquireLeadership now w state store queue
      let rr := runTryAcquire rest r.state r.store r.queue
      { returned := r.returned, state := rr.state, store := rr.store,
        queue := rr.queue, emitted := r.emitted ++ rr.emitted }

/-! ## Concrete sample values used by the witness theorems -/

/-- A freshly constructed follower state, as createLeaderElector initialises it
(with the default buffer configuration). -/
def followerState : InternalLeaderState :=
  { key := "lk", tabId := "tab-1", leaseMs := 5000, heartbeatMs := 2000,
    jitterMs := 500, isLeader := false, heartbeatTimer := none,
    checkTimer := none, activeIterators := 0, stopped := false,
    bufferSize := 100, bufferOverflow := BufferOverflowPolicy.oldest }

/-- The follower state after having become leader. -/
def leaderState : InternalLeaderState := { followerState with isLeader := true }

/-- A store with no keys set. -/
def emptyStore : Store := fun _ => none

/-- A store holding a single raw value under one key. -/
def storeWith (key : String) (raw : RawStored) : Store :=
  fun k => if k = key then some raw else none

/-- A sample event for buffer experiments. -/
def sampleEvent : LeaderEvent :=
  createLeaderEvent LeaderEventType.acquired 0 { tabId := some "tab-1" }

/-- A state with a zero-capacity buffer under the oldest policy and an active
iterator, exhibiting the capacity-zero corner of emitLeaderEvent. -/
def zeroBufferState : InternalLeaderState :=
  { followerState with
      bufferSize := 0
      activeIterators := 1
      bufferOverflow := BufferOverflowPolicy.oldest }

/-- A state for buffer-policy experiments: capacity two, one active
iterator. -/
def bufferTwoState : InternalLeaderState :=
  { followerState with bufferSize := 2, activeIterators := 1 }

/-- A second sample event (for buffer contents). -/
def sampleEventB : LeaderEvent :=
  createLeaderEvent LeaderEventType.lost 1 { tabId := some "tab-1" }

/-- A third sample event (the incoming overflow event). -/
def sampleEventC : LeaderEvent :=
  createLeaderEvent LeaderEventType.changed 2 { tabId := some "tab-1" }

/-- A store holding a valid lease owned by the sample tab. -/
def ownLeaseStore : Store :=
  storeWith "lk" (RawStored.parsed { tabId := "tab-1", timestamp := 0, leaseMs := 5000 })

/-- A store holding a lease owned by another tab, written at time 0. -/
def otherLeaseStore : Store :=
  storeWith "lk" (RawStored.parsed { tabId := "tab-2", timestamp := 0, leaseMs := 5000 })

/-- A store in which the lease names the sample tab with timestamp 2000: the
content an external context would leave behind for the reconcile pass to
observe. -/
def hijackedStore : Store :=
  storeWith "lk" (RawStored.parsed { tabId := "tab-1", timestamp := 2000, leaseMs := 5000 })

/-- The store holds a lease naming the state's own tab under the state's
key. -/
def leaseOwnedBy (store : Store) (state : InternalLeaderState) : Prop :=
  ∃ l, readLeaderLease store state.key = some l ∧ l.tabId = state.tabId

/-! ## Shared helper lemmas about the lease codec -/

/-- Reading back a successfully written lease returns exactly that lease. -/
theorem readLeaderLease_write_self (store : Store) (key : String)
    (lease : LeaderLease) :
    readLeaderLease (writeLeaderLease true store key lease) key = some lease := by
  simp [readLeaderLease, writeLeaderLease]

/-- A failed write leaves the store unchanged. -/
theorem writeLeaderLease_fail (store : Store) (key : String)
    (lease : LeaderLease) : writeLeaderLease false store key lease = store := rfl

/-- Reading a key after successfully removing it returns absent. -/
theorem readLeaderLease_remove_self (store : Store) (key : String) :
    readLeaderLease (removeLeaderLease true store key) key = none := by
  simp [readLeaderLease, removeLeaderLease]

/-- leaseTabIs is true exactly on a present lease with the given owner. -/
theorem leaseTabIs_iff (o : Option LeaderLease) (t : String) :
    leaseTabIs o t = true ↔ ∃ l, o = some l ∧ l.tabId = t := by
  cases o <;> simp [leaseTabIs]

/-- Event counting distributes over concatenated emission logs. -/
theorem countEvents_append (t : LeaderEventType) (a b : List LeaderEvent) :
    countEvents t (a ++ b) = countEvents t a + countEvents t b := by
  simp [countEvents, List.filter_append]

/-! ## Claim theorems -/

/-- Claim C9: for every lease record and current time now, isValidLeaderLease
returns true iff the record is present and now - record.timestamp <
record.leaseMs (strict inequality); an absent record (the none case of the
quantified option) is always invalid. -/
theorem isValidLeaderLease_iff (now : Int) (lease : Option LeaderLease) :
    isValidLeaderLease now lease = true ↔
      ∃ l, lease = some l ∧ now - l.timestamp < l.leaseMs := by
  cases lease <;> simp [isValidLeaderLease]

/-- Claim C8: whenever the stored raw value under a key fails to deserialize,
readLeaderLease returns absent; the function is total (the catch block of the
source), so the failure is never propagated to the caller and a corrupted
value is treated the same as no lease. -/
theorem readLeaderLease_malformed_absent (store : Store) (key : String)
    (raw : RawStored) (hstored : store key = some raw)
    (hfail : jsonParseLeaderLease raw = none) :
    readLeaderLease store key = none := by
  unfold readLeaderLease
  rw [hstored]
  cases raw with
  | emptyStr => rfl
  | malformed s => rfl
  | parsed l => simp [jsonParseLeaderLease] at hfail

/-- Witness for C8 at a concrete malformed stored value. -/
theorem readLeaderLease_malformed_absent_holds :
    (storeWith "lk" (RawStored.malformed "not json") "lk"
        = some (RawStored.malformed "not json")
      ∧ jsonParseLeaderLease (RawStored.malformed "not json") = none)
    ∧ readLeaderLease (storeWith "lk" (RawStored.malformed "not json")) "lk"
        = none :=
  ⟨⟨by decide, rfl⟩,
    readLeaderLease_malformed_absent (storeWith "lk" (RawStored.malformed "not json"))
      "lk" (RawStored.malformed "not json") (by decide) rfl⟩

/-- Claim C7: for every state and stored lease value, checkLeaderLeadership
never emits a changed event: the branch guarded by wasLeader and isNowLeader
and an owner different from state.tabId is unreachable because isNowLeader
already requires the owner to be state.tabId. -/
theorem checkLeaderLeadership_never_changed (now : Int)
    (state : InternalLeaderState) (store : Store) (queue : List LeaderEvent) :
    countEvents LeaderEventType.changed
      (checkLeaderLeadership now state store queue).emitted = 0 := by
  unfold checkLeaderLeadership
  dsimp only
  split
  · rfl
  · split
    · simp [countEvents, createLeaderEvent]
    · split
      · simp [countEvents, createLeaderEvent]
      · split
        · rename_i hcond
          exfalso
          revert hcond
          cases hA : leaseTabIs (readLeaderLease store state.key) state.tabId <;>
            simp [hA]
        · rfl

/-- Claim C6: with buffer capacity 2, a queue pre-filled with two events and an
active iterator, emitting a third event yields queue [b, c] under the oldest
policy and leaves the queue [a, b] (the incoming event discarded) under the
newest and error policies; emitLeaderEvent is a total function, so no policy
throws to the caller. -/
theorem overflow_policies_queue (a b c : LeaderEvent)
    (state : InternalLeaderState) (hIter : 0 < state.activeIterators)
    (hCap : state.bufferSize = 2) :
    emitLeaderEvent c
        { state with bufferOverflow := BufferOverflowPolicy.oldest } [a, b]
      = [b, c]
    ∧ emitLeaderEvent c
        { state with bufferOverflow := BufferOverflowPolicy.newest } [a, b]
      = [a, b]
    ∧ emitLeaderEvent c
        { state with bufferOverflow := BufferOverflowPolicy.error } [a, b]
      = [a, b] := by
  have hne : state.activeIterators ≠ 0 := Nat.pos_iff_ne_zero.mp hIter
  refine ⟨?_, ?_, ?_⟩ <;>
    simp [emitLeaderEvent, handleBufferOverflow, hCap, hne]

/-- Witness for C6 at concrete events and state. -/
theorem overflow_policies_queue_holds :
    (0 < bufferTwoState.activeIterators ∧ bufferTwoState.bufferSize = 2)
    ∧ (emitLeaderEvent sampleEventC
          { bufferTwoState with bufferOverflow := BufferOverflowPolicy.oldest }
          [sampleEvent, sampleEventB]
        = [sampleEventB, sampleEventC]
      ∧ emitLeaderEvent sampleEventC
          { bufferTwoState with bufferOverflow := BufferOverflowPolicy.newest }
          [sampleEvent, sampleEventB]
        = [sampleEvent, sampleEventB]
      ∧ emitLeaderEvent sampleEventC
          { bufferTwoState with bufferOverflow := BufferOverflowPolicy.error }
          [sampleEvent, sampleEventB]
        = [sampleEvent, sampleEventB]) :=
  ⟨⟨by decide, by decide⟩,
    overflow_policies_queue sampleEvent sampleEventB sampleEventC bufferTwoState
      (by decide) (by decide)⟩

/-- Claim C10: with at least one active iterator and bufferSize at least 1, an
event queue within capacity stays within capacity across emitLeaderEvent; the
bound on bufferSize is necessary, because with capacity 0 under the oldest
policy the emitted event is still appended and the queue exceeds capacity. -/
theorem emitLeaderEvent_queue_bound :
    (∀ (state : InternalLeaderState) (queue : List LeaderEvent)
        (event : LeaderEvent),
        0 < state.activeIterators → 1 ≤ state.bufferSize →
        queue.length ≤ state.bufferSize →
        (emitLeaderEvent event state queue).length ≤ state.bufferSize)
    ∧ zeroBufferState.bufferSize
        < (emitLeaderEvent sampleEvent zeroBufferState []).length := by
  constructor
  · intro state queue event hIter hCap hLen
    have hne : state.activeIterators ≠ 0 := Nat.pos_iff_ne_zero.mp hIter
    by_cases hq : queue.length < state.bufferSize
    · simp [emitLeaderEvent, handleBufferOverflow, hne, hq]
      omega
    · rcases hpol : state.bufferOverflow with _ | _ | _
      · simp [emitLeaderEvent, handleBufferOverflow, hne, hq, hpol]
        have ht : queue.tail.length = queue.length - 1 := List.length_tail queue
        omega
      · simp [emitLeaderEvent, handleBufferOverflow, hne, hq, hpol]
        exact hLen
      · simp [emitLeaderEvent, handleBufferOverflow, hne, hq, hpol]
        exact hLen
  · decide

/-- Witness for the bounded-queue conjunct of C10 at concrete inputs. -/
theorem emitLeaderEvent_queue_bound_holds :
    (0 < bufferTwoState.activeIterators ∧ 1 ≤ bufferTwoState.bufferSize
      ∧ ([] : List LeaderEvent).length ≤ bufferTwoState.bufferSize)
    ∧ (emitLeaderEvent sampleEvent bufferTwoState []).length
        ≤ bufferTwoState.bufferSize :=
  ⟨⟨by decide, by decide, by decide⟩,
    emitLeaderEvent_queue_bound.1 bufferTwoState [] sampleEvent
      (by decide) (by decide) (by decide)⟩

/-- Claim C1: on a non-stopped state observing an invalid (absent or expired)
lease, tryAcquireLeadership attempts to write the lease with tabId =
state.tabId, timestamp = now and leaseMs = state.leaseMs (the resulting store
is exactly that write), re-reads the lease, and returns true iff the reread
names state.tabId as owner; on a confirming reread the state is leader
afterwards and an acquired event is emitted exactly when isLeader was
previously false. -/
theorem tryAcquireLeadership_invalid_branch (now : Int) (w : Bool)
    (state : InternalLeaderState) (store : Store) (queue : List LeaderEvent)
    (hstop : state.stopped = false)
    (hinv : isValidLeaderLease now (readLeaderLease store state.key) = false) :
    (tryAcquireLeadership now w state store queue).store
        = writeLeaderLease w store state.key
            { tabId := state.tabId, timestamp := now, leaseMs := state.leaseMs }
    ∧ ((tryAcquireLeadership now w state store queue).returned = true
        ↔ leaseTabIs
            (readLeaderLease
              (writeLeaderLease w store state.key
                { tabId := state.tabId, timestamp := now,
                  leaseMs := state.leaseMs })
              state.key) state.tabId = true)
    ∧ (leaseTabIs
          (readLeaderLease
            (writeLeaderLease w store state.key
              { tabId := state.tabId, timestamp := now,
                leaseMs := state.leaseMs })
            state.key) state.tabId = true →
        (tryAcquireLeadership now w state store queue).state.isLeader = true
        ∧ countEvents LeaderEventType.acquired
            (tryAcquireLeadership now w state store queue).emitted
          = if state.isLeader then 0 else 1) := by
  by_cases hre : leaseTabIs
      (readLeaderLease
        (writeLeaderLease w store state.key
          { tabId := state.tabId, timestamp := now, leaseMs := state.leaseMs })
        state.key) state.tabId = true
  · cases hl : state.isLeader
    · refine ⟨?_, ?_, ?_⟩ <;>
        simp [tryAcquireLeadership, hstop, hinv, hre, hl, countEvents,
          createLeaderEvent]
    · refine ⟨?_, ?_, ?_⟩ <;>
        simp [tryAcquireLeadership, hstop, hinv, hre, hl, countEvents,
          createLeaderEvent]
  · simp only [Bool.not_eq_true] at hre
    cases hl : state.isLeader
    · refine ⟨?_, ?_, ?_⟩ <;>
        simp [tryAcquireLeadership, tryAcquireTail, hstop, hinv, hre, hl]
    · refine ⟨?_, ?_, ?_⟩ <;>
        simp [tryAcquireLeadership, tryAcquireTail, hstop, hinv, hre, hl]

/-- Witness for C1: a fresh follower over an empty store acquires at time 0
with a successful write. -/
theorem tryAcquireLeadership_invalid_branch_holds :
    (followerState.stopped = false
      ∧ isValidLeaderLease 0 (readLeaderLease emptyStore followerState.key)
          = false)
    ∧ ((tryAcquireLeadership 0 true followerState emptyStore []).store
          = writeLeaderLease true emptyStore followerState.key
              { tabId := followerState.tabId, timestamp := 0,
                leaseMs := followerState.leaseMs }
      ∧ ((tryAcquireLeadership 0 true followerState emptyStore []).returned
            = true
          ↔ leaseTabIs
              (readLeaderLease
                (writeLeaderLease true emptyStore followerState.key
                  { tabId := followerState.tabId, timestamp := 0,
                    leaseMs := followerState.leaseMs })
                followerState.key) followerState.tabId = true)
      ∧ (leaseTabIs
            (readLeaderLease
              (writeLeaderLease true emptyStore followerState.key
                { tabId := followerState.tabId, timestamp := 0,
                  leaseMs := followerState.leaseMs })
              followerState.key) followerState.tabId = true →
          (tryAcquireLeadership 0 true followerState emptyStore
              []).state.isLeader = true
          ∧ countEvents LeaderEventType.acquired
              (tryAcquireLeadership 0 true followerState emptyStore []).emitted
            = if followerState.isLeader then 0 else 1)) :=
  ⟨⟨rfl, by decide⟩,
    tryAcquireLeadership_invalid_branch 0 true followerState emptyStore []
      rfl (by decide)⟩

/-- Claim C3: on a non-stopped leader state whose stored lease names
state.tabId, sendLeaderHeartbeat rewrites the lease keeping the owner and the
duration and refreshing the timestamp to now (so with monotone time the
renewed timestamp is at least the previous one and ownership never changes),
while on a stored lease not naming state.tabId it instead clears isLeader and
emits one lost event. -/
theorem sendLeaderHeartbeat_spec (now : Int) (state : InternalLeaderState)
    (store : Store) (queue : List LeaderEvent)
    (hstop : state.stopped = false) (hlead : state.isLeader = true) :
    (∀ l, readLeaderLease store state.key = some l → l.tabId = state.tabId →
        readLeaderLease (sendLeaderHeartbeat now true state store queue).store
            state.key
          = some { tabId := l.tabId, timestamp := now, leaseMs := l.leaseMs }
        ∧ (sendLeaderHeartbeat now true state store queue).state = state
        ∧ (sendLeaderHeartbeat now true state store queue).emitted = []
        ∧ (l.timestamp ≤ now →
            ∀ renewed,
              readLeaderLease
                  (sendLeaderHeartbeat now true state store queue).store
                  state.key = some renewed →
              l.timestamp ≤ renewed.timestamp ∧ renewed.tabId = l.tabId
              ∧ renewed.leaseMs = l.leaseMs))
    ∧ (∀ w, leaseTabIs (readLeaderLease store state.key) state.tabId = false →
        (sendLeaderHeartbeat now w state store queue).state.isLeader = false
        ∧ countEvents LeaderEventType.lost
            (sendLeaderHeartbeat now w state store queue).emitted = 1) := by
  constructor
  · intro l hl htab
    have hread : readLeaderLease
        (sendLeaderHeartbeat now true state store queue).store state.key
      = some { tabId := l.tabId, timestamp := now, leaseMs := l.leaseMs } := by
      simp [sendLeaderHeartbeat, hstop, hlead, hl, leaseTabIs, htab,
        readLeaderLease_write_self]
    refine ⟨hread, ?_, ?_, ?_⟩
    · simp [sendLeaderHeartbeat, hstop, hlead, hl, leaseTabIs, htab]
    · simp [sendLeaderHeartbeat, hstop, hlead, hl, leaseTabIs, htab]
    · intro hts renewed hr
      rw [hread] at hr
      cases hr
      exact ⟨hts, rfl, rfl⟩
  · intro w hno
    constructor <;>
      simp [sendLeaderHeartbeat, sendLeaderHeartbeatLost, hstop, hlead, hno,
        countEvents, createLeaderEvent]

/-- Witness for C3: the sample leader renews its own lease at time 1000. -/
theorem sendLeaderHeartbeat_spec_holds :
    (leaderState.stopped = false ∧ leaderState.isLeader = true)
    ∧ readLeaderLease
        (sendLeaderHeartbeat 1000 true leaderState ownLeaseStore []).store
        leaderState.key
      = some { tabId := "tab-1", timestamp := 1000, leaseMs := 5000 } := by
  refine ⟨⟨rfl, rfl⟩, ?_⟩
  have h :=
    ((sendLeaderHeartbeat_spec 1000 leaderState ownLeaseStore [] rfl rfl).1
      { tabId := "tab-1", timestamp := 0, leaseMs := 5000 } (by decide) rfl).1
  exact h

/-- Claim C4: stopping an elector that is leader and whose stored lease names
its own tabId removes the stored lease (a subsequent read of the key is
absent), clears isLeader, emits one lost event and nulls both timer handles;
a second stop call changes nothing (same state, store and queue, no event). -/
theorem stopElector_spec (removeOk2 : Bool) (now now2 : Int)
    (state : InternalLeaderState) (store : Store) (queue : List LeaderEvent)
    (l : LeaderLease) (hlead : state.isLeader = true)
    (hl : readLeaderLease store state.key = some l)
    (htab : l.tabId = state.tabId) :
    readLeaderLease (stopElector true now state store queue).store state.key
        = none
    ∧ (stopElector true now state store queue).state.isLeader = false
    ∧ countEvents LeaderEventType.lost
        (stopElector true now state store queue).emitted = 1
    ∧ (stopElector true now state store queue).state.heartbeatTimer = none
    ∧ (stopElector true now state store queue).state.checkTimer = none
    ∧ (stopElector removeOk2 now2 (stopElector true now state store queue).state
          (stopElector true now state store queue).store
          (stopElector true now state store queue).queue).state
        = (stopElector true now state store queue).state
    ∧ (stopElector removeOk2 now2 (stopElector true now state store queue).state
          (stopElector true now state store queue).store
          (stopElector true now state store queue).queue).store
        = (stopElector true now state store queue).store
    ∧ (stopElector removeOk2 now2 (stopElector true now state store queue).state
          (stopElector true now state store queue).store
          (stopElector true now state store queue).queue).queue
        = (stopElector true now state store queue).queue
    ∧ (stopElector removeOk2 now2 (stopElector true now state store queue).state
          (stopElector true now state store queue).store
          (stopElector true now state store queue).queue).emitted
        = [] := by
  refine ⟨?_, ?_, ?_, ?_, ?_, ?_, ?_, ?_, ?_⟩ <;>
    simp [stopElector, hlead, hl, leaseTabIs, htab, countEvents,
      createLeaderEvent, readLeaderLease_remove_self]

/-- Witness for C4: the sample leader owning the stored lease is stopped at
time 1, and stopped again at time 2 with a failing remove. -/
theorem stopElector_spec_holds :
    (leaderState.isLeader = true
      ∧ readLeaderLease ownLeaseStore leaderState.key
          = some { tabId := "tab-1", timestamp := 0, leaseMs := 5000 }
      ∧ LeaderLease.tabId { tabId := "tab-1", timestamp := 0, leaseMs := 5000 }
          = leaderState.tabId)
    ∧ (readLeaderLease (stopElector true 1 leaderState ownLeaseStore []).store
          leaderState.key = none
      ∧ (stopElector true 1 leaderState ownLeaseStore []).state.isLeader = false
      ∧ countEvents LeaderEventType.lost
          (stopElector true 1 leaderState ownLeaseStore []).emitted = 1
      ∧ (stopElector true 1 leaderState ownLeaseStore []).state.heartbeatTimer
          = none
      ∧ (stopElector true 1 leaderState ownLeaseStore []).state.checkTimer
          = none
      ∧ (stopElector false 2 (stopElector true 1 leaderState ownLeaseStore []).state
            (stopElector true 1 leaderState ownLeaseStore []).store
            (stopElector true 1 leaderState ownLeaseStore []).queue).state
          = (stopElector true 1 leaderState ownLeaseStore []).state
      ∧ (stopElector false 2 (stopElector true 1 leaderState ownLeaseStore []).state
            (stopElector true 1 leaderState ownLeaseStore []).store
            (stopElector true 1 leaderState ownLeaseStore []).queue).store
          = (stopElector true 1 leaderState ownLeaseStore []).store
      ∧ (stopElector false 2 (stopElector true 1 leaderState ownLeaseStore []).state
            (stopElector true 1 leaderState ownLeaseStore []).store
            (stopElector true 1 leaderState ownLeaseStore []).queue).queue
          = (stopElector true 1 leaderState ownLeaseStore []).queue
      ∧ (stopElector false 2 (stopElector true 1 leaderState ownLeaseStore []).state
            (stopElector true 1 leaderState ownLeaseStore []).store
            (stopElector true 1 leaderState ownLeaseStore []).queue).emitted
          = []) :=
  ⟨⟨rfl, by decide, rfl⟩,
    stopElector_spec false 1 2 leaderState ownLeaseStore []
      { tabId := "tab-1", timestamp := 0, leaseMs := 5000 } rfl (by decide) rfl⟩

/-- A follower (non-stopped, not leader) whose tryAcquireLeadership call
returns true emits exactly one acquired event, ends marked leader, and leaves
a stored lease naming its own tab. -/
theorem tryAcquire_follower_success (now : Int) (w : Bool)
    (state : InternalLeaderState) (store : Store) (queue : List LeaderEvent)
    (hstop : state.stopped = false) (hlead : state.isLeader = false)
    (hret : (tryAcquireLeadership now w state store queue).returned = true) :
    countEvents LeaderEventType.acquired
        (tryAcquireLeadership now w state store queue).emitted = 1
    ∧ (tryAcquireLeadership now w state store queue).state
        = { state with isLeader := true }
    ∧ leaseOwnedBy (tryAcquireLeadership now w state store queue).store
        (tryAcquireLeadership now w state store queue).state := by
  by_cases hv : isValidLeaderLease now (readLeaderLease store state.key) = true
  · by_cases hA : leaseTabIs (readLeaderLease store state.key) state.tabId = true
    · obtain ⟨l, hl, ht⟩ := (leaseTabIs_iff _ _).mp hA
      rw [hl] at hv hA
      refine ⟨?_, ?_, l, ?_, ?_⟩ <;>
        simp [tryAcquireLeadership, tryAcquireTail, hstop, hlead, hv, hA, hl,
          ht, countEvents, createLeaderEvent]
    · exfalso
      simp only [Bool.not_eq_true] at hA
      simp [tryAcquireLeadership, tryAcquireTail, hstop, hlead, hv, hA] at hret
  · simp only [Bool.not_eq_true] at hv
    by_cases hre : leaseTabIs
        (readLeaderLease
          (writeLeaderLease w store state.key
            { tabId := state.tabId, timestamp := now, leaseMs := state.leaseMs })
          state.key) state.tabId = true
    · obtain ⟨l, hl, ht⟩ := (leaseTabIs_iff _ _).mp hre
      rw [hl] at hre
      refine ⟨?_, ?_, l, ?_, ?_⟩ <;>
        simp [tryAcquireLeadership, hstop, hlead, hv, hre, hl, ht, countEvents,
          createLeaderEvent]
    · exfalso
      simp only [Bool.not_eq_true] at hre
      simp [tryAcquireLeadership, tryAcquireTail, hstop, hlead, hv, hre]
        at hret

/-- A non-stopped confirmed leader whose stored lease names its own tab emits
nothing on a further tryAcquireLeadership call, keeps its state, and the
stored lease keeps naming its tab (whether or not the renewal write lands). -/
theorem tryAcquire_leader_owner_step (now : Int) (w : Bool)
    (state : InternalLeaderState) (store : Store) (queue : List LeaderEvent)
    (hstop : state.stopped = false) (hlead : state.isLeader = true)
    (hown : leaseOwnedBy store state) :
    (tryAcquireLeadership now w state store queue).emitted = []
    ∧ (tryAcquireLeadership now w state store queue).state = state
    ∧ leaseOwnedBy (tryAcquireLeadership now w state store queue).store
        state := by
  obtain ⟨l, hl, ht⟩ := hown
  have hA : leaseTabIs (readLeaderLease store state.key) state.tabId = true :=
    (leaseTabIs_iff _ _).mpr ⟨l, hl, ht⟩
  rw [hl] at hA
  by_cases hv : isValidLeaderLease now (readLeaderLease store state.key) = true
  · rw [hl] at hv
    refine ⟨?_, ?_, l, ?_, ?_⟩ <;>
      simp [tryAcquireLeadership, tryAcquireTail, hstop, hlead, hv, hA, hl, ht]
  · simp only [Bool.not_eq_true] at hv
    rw [hl] at hv
    cases w
    · refine ⟨?_, ?_, l, ?_, ?_⟩ <;>
        simp [tryAcquireLeadership, writeLeaderLease, hstop, hlead, hv, hA, hl,
          ht]
    · refine ⟨?_, ?_,
        { tabId := state.tabId, timestamp := now, leaseMs := state.leaseMs },
        ?_, ?_⟩ <;>
        simp [tryAcquireLeadership, hstop, hlead, hv, hl,
          readLeaderLease_write_self, leaseTabIs]

/-- Running any number of further tryAcquireLeadership calls from a confirmed
leader owning the stored lease emits no acquired event at all. -/
theorem runTryAcquire_leader_no_acquired (calls : List (Int × Bool)) :
    ∀ (state : InternalLeaderState) (store : Store) (queue : List LeaderEvent),
      state.stopped = false → state.isLeader = true → leaseOwnedBy store state →
      countEvents LeaderEventType.acquired
        (runTryAcquire calls state store queue).emitted = 0 := by
  induction calls with
  | nil => intro state store queue hstop hlead hown; rfl
  | cons c rest ih =>
    intro state store queue hstop hlead hown
    obtain ⟨now, w⟩ := c
    obtain ⟨hem, hst, hown'⟩ :=
      tryAcquire_leader_owner_step now w state store queue hstop hlead hown
    dsimp only [runTryAcquire]
    rw [countEvents_append, hem, hst]
    have h0 := ih state (tryAcquireLeadership now w state store queue).store
      (tryAcquireLeadership now w state store queue).queue hstop hlead hown'
    simp [countEvents] at h0 ⊢
    exact h0

/-- Claim C5: starting from a non-stopped follower whose first
tryAcquireLeadership call succeeds, any number of consecutive further calls
emits no additional acquired event: exactly one acquired event is emitted
across the whole run. -/
theorem tryAcquire_repeat_single_acquired (t1 : Int) (w1 : Bool)
    (rest : List (Int × Bool)) (state : InternalLeaderState) (store : Store)
    (queue : List LeaderEvent)
    (hstop : state.stopped = false) (hlead : state.isLeader = false)
    (hfirst : (tryAcquireLeadership t1 w1 state store queue).returned = true) :
    countEvents LeaderEventType.acquired
      (runTryAcquire ((t1, w1) :: rest) state store queue).emitted = 1 := by
  obtain ⟨hc, hst, hown⟩ :=
    tryAcquire_follower_success t1 w1 state store queue hstop hlead hfirst
  have hstop' :
      (tryAcquireLeadership t1 w1 state store queue).state.stopped = false := by
    rw [hst]; exact hstop
  have hlead' :
      (tryAcquireLeadership t1 w1 state store queue).state.isLeader = true := by
    rw [hst]
  have hown' : leaseOwnedBy (tryAcquireLeadership t1 w1 state store queue).store
      (tryAcquireLeadership t1 w1 state store queue).state := hown
  have h0 := runTryAcquire_leader_no_acquired rest
    (tryAcquireLeadership t1 w1 state store queue).state
    (tryAcquireLeadership t1 w1 state store queue).store
    (tryAcquireLeadership t1 w1 state store queue).queue hstop' hlead' hown'
  dsimp only [runTryAcquire]
  rw [countEvents_append, hc, h0]

/-- Witness for C5: the fresh follower over an empty store acquires at time 0
and is retried twice (once with a failing write). -/
theorem tryAcquire_repeat_single_acquired_holds :
    (followerState.stopped = false ∧ followerState.isLeader = false
      ∧ (tryAcquireLeadership 0 true followerState emptyStore []).returned
          = true)
    ∧ countEvents LeaderEventType.acquired
        (runTryAcquire ((0, true) :: [(1, true), (6000, false)]) followerState
          emptyStore []).emitted = 1 :=
  ⟨⟨rfl, rfl, by decide⟩,
    tryAcquire_repeat_single_acquired 0 true [(1, true), (6000, false)]
      followerState emptyStore [] rfl rfl (by decide)⟩

/-- Claim C2 (code-bug demonstration): the sample follower starts at time 1000
against a valid foreign lease, so acquisition fails (isLeader stays false, no
heartbeat timer armed, check timer armed); when the stored lease later names
its tab and the reconcile pass (checkLeaderLeadership) flips it to leader at
time 2500 with an acquired event, the heartbeat timer handle is still none:
checkLeaderLeadership never arms a timer, so a leader made by reconcile never
renews its lease, contrary to the claim. -/
theorem reconcile_leader_heartbeatTimer_none :
    (startElector 1000 true 7 8 followerState otherLeaseStore
        []).state.isLeader = false
    ∧ (startElector 1000 true 7 8 followerState otherLeaseStore
        []).state.heartbeatTimer = none
    ∧ (startElector 1000 true 7 8 followerState otherLeaseStore
        []).state.checkTimer = some 8
    ∧ (checkLeaderLeadership 2500
        (startElector 1000 true 7 8 followerState otherLeaseStore []).state
        hijackedStore []).state.isLeader = true
    ∧ countEvents LeaderEventType.acquired
        (checkLeaderLeadership 2500
          (startElector 1000 true 7 8 followerState otherLeaseStore []).state
          hijackedStore []).emitted = 1
    ∧ (checkLeaderLeadership 2500
        (startElector 1000 true 7 8 followerState otherLeaseStore []).state
        hijackedStore []).state.heartbeatTimer = none := by
  decide
